import Mathlib

/-!
Shallow embedding of `src/text_embedding/init.rs` from the fastembed-rs
repository: the configuration/option types `InitOptions`,
`InitOptionsUserDefined` and `UserDefinedEmbeddingModel`, together with
their fluent `with_*` setters, `Default` implementations, the manual
`Clone` implementation of `InitOptions`, and the `From<InitOptions>`
conversion into `InitOptionsUserDefined`.

External collaborator types (the `ort` execution-provider descriptor, the
`hf_hub` progress callback) are modelled as opaque value tokens; repository
constants and types defined outside the provided source file
(`DEFAULT_MAX_LENGTH`, `DEFAULT_CACHE_DIR`, `DEFAULT_EMBEDDING_MODEL`,
`EmbeddingModel`, `Pooling`, `QuantizationMode`, `TokenizerFiles`) are
modelled from the spec as noted on each definition.
-/

namespace FastEmbed

/-- Modelled from the spec: `EmbeddingModel` is "one of a fixed catalog of
known embedding models" (the enum lives outside the provided source file);
a small representative catalog with a distinguished default suffices for
the option-layer claims, which never inspect the identity. -/
inductive EmbeddingModel where
  | BGESmallENV15
  | AllMiniLML6V2
  | MxbaiEmbedLargeV1
  deriving DecidableEq, Repr

/-- External collaborator (`ort` crate): an execution-provider descriptor,
treated as an opaque value token; the option layer only stores and copies
ordered lists of them. -/
inductive ExecutionProviderDispatch where
  | CPU
  | CUDA
  | CoreML
  deriving DecidableEq, Repr

/-- External collaborator (`hf_hub` crate): a boxed progress callback,
treated as an opaque value token; the option layer only attaches it and
records its presence. -/
structure Progress where
  token : Nat
  deriving DecidableEq, Repr

/-- Modelled from the spec: `Pooling` is an "optional explicit choice of
aggregation strategy over token embeddings (e.g., mean, CLS)"; the enum
lives in `crate::pooling`, outside the provided source file. -/
inductive Pooling where
  | Cls
  | Mean
  deriving DecidableEq, Repr

/-- Modelled from the spec: `QuantizationMode` is "one of {none, one or
more quantized variants}"; the enum lives outside the provided source
file. -/
inductive QuantizationMode where
  | None
  | Static
  | Dynamic
  deriving DecidableEq, Repr

/-- Modelled from the spec: `TokenizerFiles` is a "mapping from fixed
logical roles (vocabulary, merges, tokenizer-config, special-tokens-map,
etc.) to raw byte content; equality/identity is value-based"; the struct
lives in `crate::common`, outside the provided source file. Bytes are
modelled as lists of naturals. -/
structure TokenizerFiles where
  tokenizer_file : List Nat
  config_file : List Nat
  special_tokens_map_file : List Nat
  tokenizer_config_file : List Nat
  deriving DecidableEq, Repr

/-- Modelled from the spec: the library-wide default maximum sequence
length constant `DEFAULT_MAX_LENGTH`, defined outside the provided source
file and imported by it. -/
def DEFAULT_MAX_LENGTH : Nat := 512

/-- Modelled from the spec: the "well-known process-wide default
directory" constant `DEFAULT_CACHE_DIR`, defined in `crate::common`,
outside the provided source file. Paths are modelled as strings. -/
def DEFAULT_CACHE_DIR : String := ".fastembed_cache"

/-- Modelled from the spec: the default catalog model constant
`DEFAULT_EMBEDDING_MODEL`, defined outside the provided source file. -/
def DEFAULT_EMBEDDING_MODEL : EmbeddingModel := EmbeddingModel.BGESmallENV15

/-- Embeds `pub struct InitOptions` (init.rs lines 28-35): configuration
for a catalog-selected model. `PathBuf` is modelled as a string, the boxed
`dyn Progress` trait object as the `Progress` token. -/
structure InitOptions where
  model_name : EmbeddingModel
  execution_providers : List ExecutionProviderDispatch
  max_length : Nat
  cache_dir : String
  show_download_progress : Bool
  custom_progress : Option Progress
  deriving DecidableEq, Repr

namespace InitOptions

/-- Embeds `impl Default for InitOptions` (init.rs lines 111-122). -/
def default : InitOptions :=
  { model_name := DEFAULT_EMBEDDING_MODEL
    execution_providers := []
    max_length := DEFAULT_MAX_LENGTH
    cache_dir := DEFAULT_CACHE_DIR
    show_download_progress := true
    custom_progress := none }

/-- Embeds `InitOptions::new` (init.rs lines 76-81): sets `model_name`,
all remaining fields from `Default::default()`. -/
def new (model_name : EmbeddingModel) : InitOptions :=
  { default with model_name := model_name }

/-- Embeds `InitOptions::with_custom_progress` (init.rs lines 67-74):
stores the callback and sets `show_download_progress` to `false`. -/
def with_custom_progress (o : InitOptions) (p : Progress) : InitOptions :=
  { o with custom_progress := some p, show_download_progress := false }

/-- Embeds `InitOptions::with_max_length` (init.rs lines 84-87). -/
def with_max_length (o : InitOptions) (max_length : Nat) : InitOptions :=
  { o with max_length := max_length }

/-- Embeds `InitOptions::with_cache_dir` (init.rs lines 90-93). -/
def with_cache_dir (o : InitOptions) (cache_dir : String) : InitOptions :=
  { o with cache_dir := cache_dir }

/-- Embeds `InitOptions::with_execution_providers` (init.rs lines 96-102). -/
def with_execution_providers (o : InitOptions)
    (execution_providers : List ExecutionProviderDispatch) : InitOptions :=
  { o with execution_providers := execution_providers }

/-- Embeds `InitOptions::with_show_download_progress` (init.rs lines
105-108). -/
def with_show_download_progress (o : InitOptions)
    (show_download_progress : Bool) : InitOptions :=
  { o with show_download_progress := show_download_progress }

/-- Embeds the manual `impl Clone for InitOptions` (init.rs lines 52-63):
every field is copied except `custom_progress`, which is set to `none`
("Progress can't be cloned"). -/
def clone (o : InitOptions) : InitOptions :=
  { model_name := o.model_name
    execution_providers := o.execution_providers
    max_length := o.max_length
    cache_dir := o.cache_dir
    show_download_progress := o.show_download_progress
    custom_progress := none }

end InitOptions

/-- One step of the fluent `with_*` surface of `InitOptions`, used to
quantify over arbitrary sequences of setter calls. -/
inductive WithOp where
  | maxLength (n : Nat)
  | cacheDir (s : String)
  | execProviders (l : List ExecutionProviderDispatch)
  | showProgress (b : Bool)
  | customProgress (p : Progress)
  deriving DecidableEq, Repr

/-- Applies one `with_*` call to an `InitOptions` value. -/
def applyOp (o : InitOptions) : WithOp → InitOptions
  | WithOp.maxLength n => o.with_max_length n
  | WithOp.cacheDir s => o.with_cache_dir s
  | WithOp.execProviders l => o.with_execution_providers l
  | WithOp.showProgress b => o.with_show_download_progress b
  | WithOp.customProgress p => o.with_custom_progress p

/-- Applies a sequence of `with_*` calls left to right, as a fluent chain
does. -/
def applyOps (o : InitOptions) (ops : List WithOp) : InitOptions :=
  ops.foldl applyOp o

/-- Embeds `pub struct InitOptionsUserDefined` (init.rs lines 129-132):
configuration for a caller-supplied model, carrying only the execution
providers and the max length. -/
structure InitOptionsUserDefined where
  execution_providers : List ExecutionProviderDispatch
  max_length : Nat
  deriving DecidableEq, Repr

namespace InitOptionsUserDefined

/-- Embeds `impl Default for InitOptionsUserDefined` (init.rs lines
155-162). -/
def default : InitOptionsUserDefined :=
  { execution_providers := []
    max_length := DEFAULT_MAX_LENGTH }

/-- Embeds `InitOptionsUserDefined::new` (init.rs lines 135-139): all
fields from `Default::default()`. -/
def new : InitOptionsUserDefined := default

/-- Embeds `InitOptionsUserDefined::with_execution_providers` (init.rs
lines 141-147). -/
def with_execution_providers (o : InitOptionsUserDefined)
    (execution_providers : List ExecutionProviderDispatch) :
    InitOptionsUserDefined :=
  { o with execution_providers := execution_providers }

/-- Embeds `InitOptionsUserDefined::with_max_length` (init.rs lines
149-152). -/
def with_max_length (o : InitOptionsUserDefined) (max_length : Nat) :
    InitOptionsUserDefined :=
  { o with max_length := max_length }

/-- Embeds `impl From<InitOptions> for InitOptionsUserDefined` (init.rs
lines 167-174): keeps `execution_providers` and `max_length`, discards
the rest. -/
def fromInitOptions (options : InitOptions) : InitOptionsUserDefined :=
  { execution_providers := options.execution_providers
    max_length := options.max_length }

end InitOptionsUserDefined

/-- Embeds `pub struct UserDefinedEmbeddingModel` (init.rs lines 181-186),
with derived structural equality (`PartialEq, Eq`). -/
structure UserDefinedEmbeddingModel where
  onnx_file : List Nat
  tokenizer_files : TokenizerFiles
  pooling : Option Pooling
  quantization : QuantizationMode
  deriving DecidableEq, Repr

namespace UserDefinedEmbeddingModel

/-- Embeds `UserDefinedEmbeddingModel::new` (init.rs lines 189-196). -/
def new (onnx_file : List Nat) (tokenizer_files : TokenizerFiles) :
    UserDefinedEmbeddingModel :=
  { onnx_file := onnx_file
    tokenizer_files := tokenizer_files
    quantization := QuantizationMode.None
    pooling := none }

/-- Embeds `UserDefinedEmbeddingModel::with_quantization` (init.rs lines
198-201). -/
def with_quantization (u : UserDefinedEmbeddingModel)
    (quantization : QuantizationMode) : UserDefinedEmbeddingModel :=
  { u with quantization := quantization }

/-- Embeds `UserDefinedEmbeddingModel::with_pooling` (init.rs lines
203-206). -/
def with_pooling (u : UserDefinedEmbeddingModel) (pooling : Pooling) :
    UserDefinedEmbeddingModel :=
  { u with pooling := some pooling }

end UserDefinedEmbeddingModel

end FastEmbed

namespace FastEmbed

/-- Helper: once built-in progress is off whenever a callback is attached,
any chain of `with_*` calls that never contains
`with_show_download_progress true` keeps it that way. -/
theorem applyOps_progress_invariant (o : FastEmbed.InitOptions)
    (ops : List WithOp)
    (hops : ∀ op ∈ ops, op ≠ WithOp.showProgress true)
    (h : o.custom_progress.isSome = true → o.show_download_progress = false) :
    (applyOps o ops).custom_progress.isSome = true →
      (applyOps o ops).show_download_progress = false := by
  induction ops generalizing o with
  | nil => exact h
  | cons op rest ih =>
    have hrest : ∀ op ∈ rest, op ≠ WithOp.showProgress true := by
      intro x hx
      exact hops x (List.mem_cons_of_mem _ hx)
    refine ih (applyOp o op) hrest ?_
    cases op with
    | maxLength n => exact h
    | cacheDir s => exact h
    | execProviders l => exact h
    | showProgress b =>
      cases b with
      | false => intro _; rfl
      | true => exact absurd rfl (hops _ (List.mem_cons_self _ _))
    | customProgress p => intro _; rfl

/-- C1: `with_custom_progress` stores the callback as `Some p`, forces
`show_download_progress` to `false` whatever it was before, and leaves
`model_name`, `execution_providers`, `max_length` and `cache_dir`
unchanged. -/
theorem c1_with_custom_progress_sets_callback_and_clears_builtin
    (o : FastEmbed.InitOptions) (p : Progress) :
    (o.with_custom_progress p).custom_progress = some p ∧
    (o.with_custom_progress p).show_download_progress = false ∧
    (o.with_custom_progress p).model_name = o.model_name ∧
    (o.with_custom_progress p).execution_providers = o.execution_providers ∧
    (o.with_custom_progress p).max_length = o.max_length ∧
    (o.with_custom_progress p).cache_dir = o.cache_dir := by
  exact ⟨rfl, rfl, rfl, rfl, rfl, rfl⟩

/-- C2 counterexample: starting from the default options, the fluent chain
`with_custom_progress p` then `with_show_download_progress true` is a
sequence of `with_*` calls that leaves the callback attached, yet produces
a value with `custom_progress = Some p` and
`show_download_progress = true`: the exclusion is enforced only at the
point of attachment, so the claim as stated is false. -/
theorem c2_counterexample_builtin_reenabled_after_callback :
    (applyOps FastEmbed.InitOptions.default
        [WithOp.customProgress ⟨0⟩, WithOp.showProgress true]).custom_progress
      = some ⟨0⟩ ∧
    (applyOps FastEmbed.InitOptions.default
        [WithOp.customProgress ⟨0⟩, WithOp.showProgress true]).show_download_progress
      = true := by
  exact ⟨rfl, rfl⟩

/-- C2 (amended): immediately after `with_custom_progress` the callback is
attached and built-in reporting is off, and any further sequence of
`with_*` calls that never contains `with_show_download_progress true`
preserves the exclusion: if the result still has a callback attached, its
`show_download_progress` is `false`. Only an explicit later
`with_show_download_progress true` can re-enable built-in reporting while
a callback is attached. -/
theorem c2_progress_exclusion_preserved_without_reenable
    (o : FastEmbed.InitOptions) (p : Progress) (ops : List WithOp)
    (hops : ∀ op ∈ ops, op ≠ WithOp.showProgress true)
    (hsome : (applyOps (o.with_custom_progress p) ops).custom_progress.isSome
      = true) :
    (applyOps (o.with_custom_progress p) ops).show_download_progress = false := by
  refine applyOps_progress_invariant (o.with_custom_progress p) ops hops ?_ hsome
  intro _
  rfl

/-- C2 witness: the amended theorem applied at the default options, the
callback token 0, and the one-step chain `with_max_length 256`. -/
theorem c2_progress_exclusion_witness :
    (applyOps (FastEmbed.InitOptions.default.with_custom_progress ⟨0⟩)
        [WithOp.maxLength 256]).show_download_progress = false :=
  c2_progress_exclusion_preserved_without_reenable
    FastEmbed.InitOptions.default ⟨0⟩ [WithOp.maxLength 256]
    (by decide) (by decide)

/-- C3: `InitOptions::new m` has `model_name = m`, the library-wide
default max length (the catalog-appropriate default the spec names, a
single constant shared by all catalog models), the process-wide default
cache directory, built-in progress reporting enabled, an empty
execution-provider list, and no custom callback. -/
theorem c3_new_defaults (m : EmbeddingModel) :
    (FastEmbed.InitOptions.new m).model_name = m ∧
    (FastEmbed.InitOptions.new m).max_length = DEFAULT_MAX_LENGTH ∧
    (FastEmbed.InitOptions.new m).cache_dir = DEFAULT_CACHE_DIR ∧
    (FastEmbed.InitOptions.new m).show_download_progress = true ∧
    (FastEmbed.InitOptions.new m).execution_providers = [] ∧
    (FastEmbed.InitOptions.new m).custom_progress = none := by
  exact ⟨rfl, rfl, rfl, rfl, rfl, rfl⟩

/-- C4: the manual `Clone` of `InitOptions` drops any attached callback
(`custom_progress = none` in the clone) and copies every other field
unchanged. -/
theorem c4_clone_drops_custom_progress (o : FastEmbed.InitOptions) :
    o.clone.custom_progress = none ∧
    o.clone.model_name = o.model_name ∧
    o.clone.execution_providers = o.execution_providers ∧
    o.clone.max_length = o.max_length ∧
    o.clone.cache_dir = o.cache_dir ∧
    o.clone.show_download_progress = o.show_download_progress := by
  exact ⟨rfl, rfl, rfl, rfl, rfl, rfl⟩

/-- C5: converting `InitOptions` into `InitOptionsUserDefined` yields
exactly the record made of `o.execution_providers` and `o.max_length`;
since `InitOptionsUserDefined` has no other fields, the model identity,
cache directory and progress policy are discarded. -/
theorem c5_from_initoptions_is_lossy_narrowing (o : FastEmbed.InitOptions) :
    InitOptionsUserDefined.fromInitOptions o =
      { execution_providers := o.execution_providers
        max_length := o.max_length } := by
  rfl

/-- C6: `UserDefinedEmbeddingModel::new` starts with quantization `None`
and no pooling, and each fluent override replaces the prior value
outright: `with_pooling p` yields `pooling = some p` and
`with_quantization q` yields `quantization = q`, whatever was stored
before. -/
theorem c6_user_defined_model_defaults_and_overrides
    (bytes : List Nat) (files : TokenizerFiles)
    (u : UserDefinedEmbeddingModel) (p : Pooling) (q : QuantizationMode) :
    (UserDefinedEmbeddingModel.new bytes files).quantization
      = QuantizationMode.None ∧
    (UserDefinedEmbeddingModel.new bytes files).pooling = none ∧
    (u.with_pooling p).pooling = some p ∧
    (u.with_quantization q).quantization = q := by
  exact ⟨rfl, rfl, rfl, rfl⟩

/-- C7: equality of `UserDefinedEmbeddingModel` values is structural: two
values are equal iff their `onnx_file` bytes, `tokenizer_files`,
`pooling` and `quantization` all agree, so changing any one of the four
fields breaks equality. -/
theorem c7_user_defined_model_structural_equality
    (u v : UserDefinedEmbeddingModel) :
    u = v ↔
      u.onnx_file = v.onnx_file ∧
      u.tokenizer_files = v.tokenizer_files ∧
      u.pooling = v.pooling ∧
      u.quantization = v.quantization := by
  constructor
  · intro h
    subst h
    exact ⟨rfl, rfl, rfl, rfl⟩
  · intro ⟨h1, h2, h3, h4⟩
    cases u
    cases v
    simp_all

/-- C8: `InitOptions::default()` enables built-in progress reporting and
carries no custom callback, and `InitOptionsUserDefined::new()` equals
its default, with the library-wide default max length and an empty
execution-provider list. -/
theorem c8_defaults_progress_and_user_defined :
    FastEmbed.InitOptions.default.show_download_progress = true ∧
    FastEmbed.InitOptions.default.custom_progress = none ∧
    InitOptionsUserDefined.new = InitOptionsUserDefined.default ∧
    InitOptionsUserDefined.new.max_length = DEFAULT_MAX_LENGTH ∧
    InitOptionsUserDefined.new.execution_providers = [] := by
  exact ⟨rfl, rfl, rfl, rfl, rfl⟩

/-- C9: every field-level setter (`with_max_length`, `with_cache_dir`,
`with_execution_providers`, `with_show_download_progress` on
`InitOptions`; `with_execution_providers`, `with_max_length` on
`InitOptionsUserDefined`) sets exactly its named field to the supplied
argument and leaves all other fields unchanged; all are total value
transformations. -/
theorem c9_setters_frame_conditions
    (o : FastEmbed.InitOptions) (n : Nat) (s : String)
    (l : List ExecutionProviderDispatch) (b : Bool)
    (uo : InitOptionsUserDefined) (l2 : List ExecutionProviderDispatch)
    (n2 : Nat) :
    ((o.with_max_length n) =
      { o with max_length := n }) ∧
    ((o.with_cache_dir s) =
      { o with cache_dir := s }) ∧
    ((o.with_execution_providers l) =
      { o with execution_providers := l }) ∧
    ((o.with_show_download_progress b) =
      { o with show_download_progress := b }) ∧
    ((uo.with_execution_providers l2) =
      { uo with execution_providers := l2 }) ∧
    ((uo.with_max_length n2) =
      { uo with max_length := n2 }) := by
  exact ⟨rfl, rfl, rfl, rfl, rfl, rfl⟩

/-- C10: the lossy narrowing maps defaults to defaults: converting the
default `InitOptions` into `InitOptionsUserDefined` yields exactly
`InitOptionsUserDefined`'s own default. -/
theorem c10_from_default_is_default :
    InitOptionsUserDefined.fromInitOptions FastEmbed.InitOptions.default =
      InitOptionsUserDefined.default := by
  rfl

end FastEmbed
